import Mathlib

/-!
Verification development for the ATS resume-analyzer repository.

The embedding models, in Lean, the pieces of the code that the claims are
about:

* `apps/analyzer/services/ai_analyzer.py` (class `AIAnalyzer`): payload
  dispatch, response-text extraction, JSON extraction, output structuring,
  and the `analyze_resume_match` orchestration with its try/except wrapping.
* `apps/analyzer/services/pdf_extractor.py` (class `PDFExtractor`):
  `extract_text` over an ordered list of strategies.
* `apps/analyzer/models.py`, `apps/analyzer/views.py`, `api/main.py`:
  the `QualifiedCandidate` record, the qualification (promotion) step,
  the two partial-update endpoints and the two list endpoints.

Python JSON values are modelled by the inductive `JValue`; Python floats and
Decimal values are modelled by `ℚ` (exact values; none of the verified
properties depend on binary rounding).  `json.loads` is modelled by an
executable fuel-based parser `json_loads`; `float(x)` by `pyFloat` /
`strToFloat`.  Raised exceptions are modelled by `Except.error`.
-/

/-- A parsed JSON value (result of Python `json.loads`).  Python `dict`s are
modelled as association lists; for duplicate keys the later entry wins, as in
Python, which `lookupJ` implements. -/
inductive JValue where
  | jnull
  | jbool (b : Bool)
  | jint (n : Int)
  | jfloat (q : ℚ)
  | jstr (s : String)
  | jarr (items : List JValue)
  | jobj (fields : List (String × JValue))

/-- Dictionary lookup on the association-list model of a Python dict: the
later binding of a key wins, matching `dict` construction in `json.loads`. -/
def lookupJ : List (String × JValue) → String → Option JValue
  | [], _ => none
  | (k, v) :: rest, key =>
    match lookupJ rest key with
    | some w => some w
    | none => if k = key then some v else none

/-- Python `d.get(key, default)`. -/
def pyGet (fields : List (String × JValue)) (key : String) (dflt : JValue) : JValue :=
  (lookupJ fields key).getD dflt

/-- Whitespace accepted between JSON tokens by Python `json.loads`. -/
def isJsonWs (c : Char) : Bool :=
  c = ' ' ∨ c = '\t' ∨ c = '\n' ∨ c = '\r'

/-- Whitespace stripped by Python `str.strip()` (ASCII subset; the exotic
Unicode whitespace Python also strips plays no role in any claim). -/
def isPyWs (c : Char) : Bool :=
  c = ' ' ∨ c = '\t' ∨ c = '\n' ∨ c = '\r' ∨ c = '\x0b' ∨ c = '\x0c'

def skipWs : List Char → List Char
  | [] => []
  | c :: cs => if isJsonWs c then skipWs cs else c :: cs

/-- Python `str.strip()` on a character list. -/
def pyStripChars (cs : List Char) : List Char :=
  ((cs.dropWhile isPyWs).reverse.dropWhile isPyWs).reverse

/-- Python `str.strip()`. -/
def pyStrip (s : String) : String :=
  String.mk (pyStripChars s.data)

/-- Python `str.upper()` (ASCII). -/
def pyUpper (s : String) : String :=
  String.mk (s.data.map Char.toUpper)

/-- Python `str.lower()` (ASCII). -/
def pyLower (s : String) : String :=
  String.mk (s.data.map Char.toLower)

/-- Does `needle` occur as a prefix of `hay`? -/
def startsWithChars : List Char → List Char → Bool
  | [], _ => true
  | _ :: _, [] => false
  | a :: as, b :: bs => a = b && startsWithChars as bs

/-- Does `needle` occur as a contiguous run anywhere in `hay`?  Models the
Python substring test `needle in hay`. -/
def containsChars (needle : List Char) : List Char → Bool
  | [] => needle.isEmpty
  | b :: bs => startsWithChars needle (b :: bs) || containsChars needle bs

/-- Python `needle in hay` for strings. -/
def pyContains (hay needle : String) : Bool :=
  containsChars needle.data hay.data

/-- The characters of `hay` strictly after the first occurrence of `needle`
(empty when `needle` does not occur). -/
def afterFirst (needle : List Char) : List Char → List Char
  | [] => []
  | b :: bs =>
    if startsWithChars needle (b :: bs) then (b :: bs).drop needle.length
    else afterFirst needle bs

/-- The characters of `hay` strictly before the first occurrence of `needle`
(all of `hay` when `needle` does not occur).  `beforeFirst d (afterFirst d l)`
is Python `l.split(d)[1]`, and `beforeFirst d l` is `l.split(d)[0]`. -/
def beforeFirst (needle : List Char) : List Char → List Char
  | [] => []
  | b :: bs =>
    if startsWithChars needle (b :: bs) then []
    else b :: beforeFirst needle bs

def spanDigits (cs : List Char) : List Char × List Char :=
  (cs.takeWhile Char.isDigit, cs.dropWhile Char.isDigit)

def digitsVal (ds : List Char) : Nat :=
  ds.foldl (fun a c => 10 * a + (c.toNat - 48)) 0

/-- Multiply a rational by the given power of ten (decimal exponent).  The
zero exponent short-circuits so that integer-valued tokens stay free of
rational arithmetic. -/
def applyExp (q : ℚ) (e : Int) : ℚ :=
  if e = 0 then q
  else if 0 ≤ e then q * (10 : ℚ) ^ e.toNat
  else q / (10 : ℚ) ^ (-e).toNat

/-- Parse an optional JSON exponent part `e`/`E` `[+|-]` digits.  Returns
`none` on a malformed exponent, `some (none, rest)` when no exponent is
present, `some (some e, rest)` otherwise. -/
def parseExpOpt (cs : List Char) : Option (Option Int × List Char) :=
  match cs with
  | 'e' :: t =>
    (match t with
     | '+' :: u =>
       let (es, t2) := spanDigits u
       if es.isEmpty then none else some (some (digitsVal es : Int), t2)
     | '-' :: u =>
       let (es, t2) := spanDigits u
       if es.isEmpty then none else some (some (-(digitsVal es : Int)), t2)
     | _ =>
       let (es, t2) := spanDigits t
       if es.isEmpty then none else some (some (digitsVal es : Int), t2))
  | 'E' :: t =>
    (match t with
     | '+' :: u =>
       let (es, t2) := spanDigits u
       if es.isEmpty then none else some (some (digitsVal es : Int), t2)
     | '-' :: u =>
       let (es, t2) := spanDigits u
       if es.isEmpty then none else some (some (-(digitsVal es : Int)), t2)
     | _ =>
       let (es, t2) := spanDigits t
       if es.isEmpty then none else some (some (digitsVal es : Int), t2))
  | _ => some (none, cs)

/-- Parse a JSON number.  An integer token yields `jint` (Python `int`),
a token with a fraction or exponent yields `jfloat` (Python `float`,
modelled exactly as a rational).  Leading-zero strictness of the Python
parser is not enforced; no claim depends on it. -/
def parseNumber (cs : List Char) : Option (JValue × List Char) :=
  let signed : Bool × List Char :=
    match cs with
    | '-' :: t => (true, t)
    | _ => (false, cs)
  let neg := signed.1
  let cs1 := signed.2
  let (ds, cs2) := spanDigits cs1
  if ds.isEmpty then none
  else
    match cs2 with
    | '.' :: cs3 =>
      let (fs, cs4) := spanDigits cs3
      if fs.isEmpty then none
      else
        match parseExpOpt cs4 with
        | none => none
        | some (eo, rest) =>
          let base : ℚ := (digitsVal ds : ℚ) + (digitsVal fs : ℚ) / (10 : ℚ) ^ fs.length
          let q := applyExp base (eo.getD 0)
          some (.jfloat (if neg then -q else q), rest)
    | _ =>
      match parseExpOpt cs2 with
      | none => none
      | some (none, rest) =>
        let n : Int := (digitsVal ds : Int)
        some (.jint (if neg then -n else n), rest)
      | some (some e, rest) =>
        let q := applyExp (digitsVal ds : ℚ) e
        some (.jfloat (if neg then -q else q), rest)

def parseHexDigit (c : Char) : Option Nat :=
  if c.isDigit then some (c.toNat - 48)
  else if 'a' ≤ c ∧ c ≤ 'f' then some (c.toNat - 87)
  else if 'A' ≤ c ∧ c ≤ 'F' then some (c.toNat - 70)
  else none

/-- Parse the body of a JSON string, starting just after the opening quote;
returns the content characters and the remainder after the closing quote. -/
def parseStringBody : List Char → Option (List Char × List Char)
  | [] => none
  | c :: cs =>
    if c = '"' then some ([], cs)
    else if c = '\\' then
      match cs with
      | 'u' :: h1 :: h2 :: h3 :: h4 :: cs3 =>
        (match parseHexDigit h1, parseHexDigit h2, parseHexDigit h3, parseHexDigit h4 with
         | some a, some b, some c2, some d =>
           (parseStringBody cs3).map (fun p => (Char.ofNat (((a * 16 + b) * 16 + c2) * 16 + d) :: p.1, p.2))
         | _, _, _, _ => none)
      | e :: cs2 =>
        if e = '"' then (parseStringBody cs2).map (fun p => ('"' :: p.1, p.2))
        else if e = '\\' then (parseStringBody cs2).map (fun p => ('\\' :: p.1, p.2))
        else if e = '/' then (parseStringBody cs2).map (fun p => ('/' :: p.1, p.2))
        else if e = 'n' then (parseStringBody cs2).map (fun p => ('\n' :: p.1, p.2))
        else if e = 't' then (parseStringBody cs2).map (fun p => ('\t' :: p.1, p.2))
        else if e = 'r' then (parseStringBody cs2).map (fun p => ('\r' :: p.1, p.2))
        else if e = 'b' then (parseStringBody cs2).map (fun p => (Char.ofNat 8 :: p.1, p.2))
        else if e = 'f' then (parseStringBody cs2).map (fun p => (Char.ofNat 12 :: p.1, p.2))
        else none
      | [] => none
    else (parseStringBody cs).map (fun p => (c :: p.1, p.2))

/-- Fuel-based recursive-descent JSON parser.  `mode` selects a grammar
production: 0 = value, 1 = array body after an opening bracket, 2 = array
tail (comma-separated items up to the closing bracket, returned as `jarr`),
3 = object body after an opening brace, 4 = object tail (returned as
`jobj`), 5 = a single `"key": value` member (returned as a one-field
`jobj`).  A single fuel-indexed function is used so that the definition is
structurally recursive and kernel-reducible. -/
def parseCore : Nat → Nat → List Char → Option (JValue × List Char)
  | 0, _, _ => none
  | fuel + 1, mode, cs =>
    if mode = 0 then
      match skipWs cs with
      | [] => none
      | c :: rest =>
        if c = '\x7b' then parseCore fuel 3 rest
        else if c = '[' then parseCore fuel 1 rest
        else if c = '"' then
          (parseStringBody rest).map (fun p => (.jstr (String.mk p.1), p.2))
        else if c = 't' then
          (match rest with
           | 'r' :: 'u' :: 'e' :: r => some (.jbool true, r)
           | _ => none)
        else if c = 'f' then
          (match rest with
           | 'a' :: 'l' :: 's' :: 'e' :: r => some (.jbool false, r)
           | _ => none)
        else if c = 'n' then
          (match rest with
           | 'u' :: 'l' :: 'l' :: r => some (.jnull, r)
           | _ => none)
        else parseNumber (c :: rest)
    else if mode = 1 then
      match skipWs cs with
      | ']' :: rest => some (.jarr [], rest)
      | cs1 =>
        match parseCore fuel 0 cs1 with
        | none => none
        | some (v, rest) =>
          match parseCore fuel 2 rest with
          | some (.jarr vs, rest2) => some (.jarr (v :: vs), rest2)
          | _ => none
    else if mode = 2 then
      match skipWs cs with
      | ']' :: rest => some (.jarr [], rest)
      | ',' :: rest =>
        (match parseCore fuel 0 rest with
         | none => none
         | some (v, rest2) =>
           match parseCore fuel 2 rest2 with
           | some (.jarr vs, rest3) => some (.jarr (v :: vs), rest3)
           | _ => none)
      | _ => none
    else if mode = 3 then
      match skipWs cs with
      | '\x7d' :: rest => some (.jobj [], rest)
      | cs1 =>
        match parseCore fuel 5 cs1 with
        | some (.jobj [kv], rest) =>
          (match parseCore fuel 4 rest with
           | some (.jobj kvs, rest2) => some (.jobj (kv :: kvs), rest2)
           | _ => none)
        | _ => none
    else if mode = 4 then
      match skipWs cs with
      | '\x7d' :: rest => some (.jobj [], rest)
      | ',' :: rest =>
        (match parseCore fuel 5 rest with
         | some (.jobj [kv], rest2) =>
           (match parseCore fuel 4 rest2 with
            | some (.jobj kvs, rest3) => some (.jobj (kv :: kvs), rest3)
            | _ => none)
         | _ => none)
      | _ => none
    else if mode = 5 then
      match skipWs cs with
      | '"' :: rest =>
        (match parseStringBody rest with
         | none => none
         | some (kchars, rest2) =>
           match skipWs rest2 with
           | ':' :: rest3 =>
             (parseCore fuel 0 rest3).map (fun p => (.jobj [(String.mk kchars, p.1)], p.2))
           | _ => none)
      | _ => none
    else none

/-- Python `json.loads`: parse a complete JSON document, rejecting trailing
garbage (as the Python parser does).  `none` models a raised
`json.JSONDecodeError`. -/
def json_loads (s : String) : Option JValue :=
  match parseCore (3 * s.data.length + 3) 0 s.data with
  | some (v, rest) => if (skipWs rest).isEmpty then some v else none
  | none => none

/-- Python `float(s)` on a string: optional surrounding whitespace, optional
sign, decimal digits with optional fraction and exponent.  `none` models a
raised `ValueError`.  (`inf`/`nan` spellings and underscore separators,
which Python also accepts, play no role in any claim.) -/
def strToFloat (s : String) : Option ℚ :=
  let cs := pyStripChars s.data
  let signed : Bool × List Char :=
    match cs with
    | '+' :: t => (false, t)
    | '-' :: t => (true, t)
    | _ => (false, cs)
  let neg := signed.1
  let cs1 := signed.2
  let (ds, cs2) := spanDigits cs1
  match cs2 with
  | '.' :: cs3 =>
    let (fs, cs4) := spanDigits cs3
    if ds.isEmpty ∧ fs.isEmpty then none
    else
      match parseExpOpt cs4 with
      | some (eo, rest) =>
        if rest.isEmpty then
          let q := applyExp ((digitsVal ds : ℚ) + (digitsVal fs : ℚ) / (10 : ℚ) ^ fs.length) (eo.getD 0)
          some (if neg then -q else q)
        else none
      | none => none
  | _ =>
    if ds.isEmpty then none
    else
      match parseExpOpt cs2 with
      | some (eo, rest) =>
        if rest.isEmpty then
          let q := applyExp (digitsVal ds : ℚ) (eo.getD 0)
          some (if neg then -q else q)
        else none
      | none => none

/-- Python `float(x)` applied to a decoded JSON value: numbers and booleans
convert, numeric strings parse, everything else raises (`none`). -/
def pyFloat : JValue → Option ℚ
  | .jint n => some (n : ℚ)
  | .jfloat q => some q
  | .jbool b => some (if b then 1 else 0)
  | .jstr s => strToFloat s
  | .jnull => none
  | .jarr _ => none
  | .jobj _ => none

/-- Comma-and-space join, matching `json.dumps` default separators. -/
def commaJoin : List String → String
  | [] => ""
  | [x] => x
  | x :: y :: xs => x ++ ", " ++ commaJoin (y :: xs)

/-- Minimal JSON string escaping for the serializer model. -/
def escapeJString (cs : List Char) : List Char :=
  match cs with
  | [] => []
  | c :: rest =>
    (if c = '"' then ['\\', '"'] else if c = '\\' then ['\\', '\\'] else [c]) ++ escapeJString rest

mutual

/-- Python `json.dumps` (the float rendering is approximated; no verified
property inspects the serialized text, it is only the last-resort fallback of
response-text extraction). -/
def jsonDumps : JValue → String
  | .jnull => "null"
  | .jbool true => "true"
  | .jbool false => "false"
  | .jint n => toString n
  | .jfloat q => toString q
  | .jstr s => "\"" ++ String.mk (escapeJString s.data) ++ "\""
  | .jarr items => "[" ++ commaJoin (jsonDumpsItems items) ++ "]"
  | .jobj fields => "\x7b" ++ commaJoin (jsonDumpsFields fields) ++ "\x7d"

def jsonDumpsItems : List JValue → List String
  | [] => []
  | v :: rest => jsonDumps v :: jsonDumpsItems rest

def jsonDumpsFields : List (String × JValue) → List String
  | [] => []
  | (k, v) :: rest => ("\"" ++ k ++ "\": " ++ jsonDumps v) :: jsonDumpsFields rest

end

/-- Provider-specific request body, one constructor per shape built by
`AIAnalyzer._build_payload`. -/
inductive Payload where
  | anthropicMessages (anthropic_version : String) (max_tokens : Nat) (temperature : ℚ) (prompt : String)
  | llamaPrompt (max_gen_len : Nat) (temperature : ℚ) (prompt : String)
  | titanText (maxTokenCount : Nat) (temperature : ℚ) (inputText : String)
  | genericPrompt (max_tokens : Nat) (temperature : ℚ) (prompt : String)

/-- `AIAnalyzer._build_prompt`: the analysis prompt with both texts embedded
verbatim (the braces of the JSON template are written `\x7b`/`\x7d`). -/
def _build_prompt (resume_text job_description : String) : String :=
  "\nYou are an ATS Resume Analyzer. Compare the resume with the job description and return ONLY valid JSON.\n\n### JOB DESCRIPTION:\n"
  ++ job_description
  ++ "\n\n### RESUME:\n"
  ++ resume_text
  ++ "\n\n### JSON FORMAT:\n\x7b\n  \"match_percentage\": 0,\n  \"matching_skills\": [],\n  \"matching_education\": \"\",\n  \"matching_experience\": \"\",\n  \"highlighted_strengths\": [],\n  \"identified_gaps\": [],\n  \"detailed_analysis\": \x7b\n    \"skills_breakdown\": \x7b\n      \"required_skills\": [],\n      \"candidate_skills\": [],\n      \"matched_count\": 0,\n      \"total_required\": 0\n    \x7d,\n    \"experience_analysis\": \x7b\n      \"required_years\": \"\",\n      \"candidate_years\": \"\",\n      \"relevant_roles\": []\n    \x7d,\n    \"education_analysis\": \x7b\n      \"required\": \"\",\n      \"candidate\": \"\",\n      \"match_level\": \"\"\n    \x7d\n  \x7d\n\x7d\n\nReturn ONLY the JSON. Do not include any explanation.\n        "

/-- `AIAnalyzer._build_payload`: substring dispatch on the model identifier,
first match wins; the `amazon.nova` family raises (modelled as
`Except.error`); everything else falls back to the generic prompt shape
(the source's Mistral/Cohere/fallback return values are literally the same
dictionary). -/
def _build_payload (model_id prompt : String) : Except String Payload :=
  if pyContains model_id "anthropic" then
    .ok (.anthropicMessages "bedrock-2023-05-31" 4096 0.2 prompt)
  else if pyContains model_id "meta.llama" then
    .ok (.llamaPrompt 4096 0.2 prompt)
  else if pyContains model_id "amazon.titan-text" then
    .ok (.titanText 4096 0.2 prompt)
  else if pyContains model_id "amazon.nova" then
    .error (model_id ++ " cannot run on-demand. Requires Provisioned Throughput (PTU).")
  else
    .ok (.genericPrompt 4096 0.2 prompt)

/-- The Claude branch of `_extract_text`: `"".join([c.get("text", "") for c
in body["content"]])`.  A non-dict element or a non-string `"text"` value
raises in Python (modelled as `Except.error`). -/
def joinContentItems : List JValue → Except String String
  | [] => .ok ""
  | .jobj f :: rest =>
    (match pyGet f "text" (.jstr "") with
     | .jstr s =>
       match joinContentItems rest with
       | .ok r => .ok (s ++ r)
       | .error e => .error e
     | _ => .error "TypeError: sequence item: expected str instance")
  | _ :: _ => .error "AttributeError: object has no attribute get"

/-- `AIAnalyzer._extract_text`: shape dispatch on the decoded response body.
The `results` branch indexes `body[\"results\"][0]` unconditionally, so an
empty list raises an `IndexError` (modelled as `Except.error`) before the
`json.dumps` fallback can be reached.  For a non-dict body the Python `in`
tests mean list membership or substring search; those cases (never produced
by the provider) are modelled faithfully enough to stay total. -/
def _extract_text (body : JValue) : Except String String :=
  match body with
  | .jobj fields =>
    (match lookupJ fields "content" with
     | some (.jarr items) => joinContentItems items
     | some _ => .error "TypeError: body content is not iterable of dicts"
     | none =>
       match lookupJ fields "generation" with
       | some (.jstr s) => .ok s
       | some _ => .error "TypeError: generation is not a string"
       | none =>
         match lookupJ fields "results" with
         | some (.jarr []) => .error "IndexError: list index out of range"
         | some (.jarr (x :: _)) =>
           (match x with
            | .jobj f =>
              (match pyGet f "outputText" (.jstr "") with
               | .jstr s => .ok s
               | _ => .error "TypeError: outputText is not a string")
            | _ => .error "AttributeError: object has no attribute get")
         | some _ => .error "TypeError: results is not indexable"
         | none => .ok (jsonDumps body))
  | .jarr items =>
    if items.any (fun v =>
         match v with
         | .jstr s => s = "content" ∨ s = "generation" ∨ s = "results"
         | _ => false) then
      .error "TypeError: list indices must be integers"
    else .ok (jsonDumps body)
  | .jstr s =>
    if pyContains s "content" ∨ pyContains s "generation" ∨ pyContains s "results" then
      .error "TypeError: string indices must be integers"
    else .ok (jsonDumps body)
  | _ => .error "TypeError: argument is not iterable"

/-- `AIAnalyzer._extract_json`: fenced-JSON block first, then any fenced
block, then the whole text; only the whole-text attempt is guarded by
`try/except` in the source, so a malformed fenced block raises
(`Except.error`) while an unfenced parse failure degrades to
`\x7b"raw_response": text\x7d`.  Python `text.split(d)[1]` is the segment
between the first and second occurrence of `d` (to the end when `d` occurs
once), i.e. `beforeFirst d (afterFirst d text)`. -/
def _extract_json (text : String) : Except String JValue :=
  if pyContains text "```json" then
    match json_loads (pyStrip (String.mk (beforeFirst "```".data
        (beforeFirst "```json".data (afterFirst "```json".data text.data))))) with
    | some j => .ok j
    | none => .error "json.decoder.JSONDecodeError"
  else if pyContains text "```" then
    match json_loads (pyStrip (String.mk (beforeFirst "```".data (afterFirst "```".data text.data)))) with
    | some j => .ok j
    | none => .error "json.decoder.JSONDecodeError"
  else
    match json_loads text with
    | some j => .ok j
    | none => .ok (.jobj [("raw_response", .jstr text)])

/-- The normalized analysis result built by `AIAnalyzer._structure_output`.
The `session_id` field of the source (`os.urandom(6).hex()`, pure
environment randomness, read by no caller in the repository) is not
modelled. -/
structure StructuredOutput where
  match_percentage : ℚ
  matching_skills : JValue
  matching_education : JValue
  matching_experience : JValue
  highlighted_strengths : JValue
  identified_gaps : JValue
  detailed_analysis : JValue
  raw_response : JValue
  processing_time : JValue

/-- `AIAnalyzer._structure_output`: read every field with a default via
`data.get`, coercing the match percentage with `float(...)`; a non-numeric
value there, or a non-dict `data`, raises (modelled as `Except.error`). -/
def _structure_output (data : JValue) : Except String StructuredOutput :=
  match data with
  | .jobj fields =>
    (match pyFloat (pyGet fields "match_percentage" (.jint 0)) with
     | some q =>
       .ok { match_percentage := q
             matching_skills := pyGet fields "matching_skills" (.jarr [])
             matching_education := pyGet fields "matching_education" (.jstr "")
             matching_experience := pyGet fields "matching_experience" (.jstr "")
             highlighted_strengths := pyGet fields "highlighted_strengths" (.jarr [])
             identified_gaps := pyGet fields "identified_gaps" (.jarr [])
             detailed_analysis := pyGet fields "detailed_analysis" (.jobj [])
             raw_response := .jobj fields
             processing_time := pyGet fields "processing_time" (.jfloat 1) }
     | none => .error "float() argument must be a string or a real number")
  | _ => .error "AttributeError: object has no attribute get"

/-- The body of the `try` block of `analyze_resume_match` up to `json_data`:
invoke the model (the external call is an oracle parameter), decode, extract
the text, extract the JSON. -/
def tryStages (invoke : Payload → Except String JValue) (payload : Payload) : Except String JValue :=
  match invoke payload with
  | .error e => .error e
  | .ok body =>
    match _extract_text body with
    | .error e => .error e
    | .ok text => _extract_json text

/-- `AIAnalyzer.analyze_resume_match`: build the prompt and the payload
(outside the `try` block — a payload error propagates unwrapped), then run
the invocation/extraction/structuring stages inside the `try` block, whose
`except` clause re-raises any failure as `"Analysis failed: ..."`. -/
def analyze_resume_match (invoke : Payload → Except String JValue)
    (model_id resume_text job_description : String) : Except String StructuredOutput :=
  match _build_payload model_id (_build_prompt resume_text job_description) with
  | .error e => .error e
  | .ok payload =>
    match tryStages invoke payload with
    | .error e => .error ("Analysis failed: " ++ e)
    | .ok data =>
      match _structure_output data with
      | .ok out => .ok out
      | .error e => .error ("Analysis failed: " ++ e)

/-- `PDFExtractor.extract_text`: the three extraction strategies
(pdfplumber, PyMuPDF, PyPDF2, in that order) each either return text or
swallow their own exception and return `None`; they are modelled by their
results, an ordered list of `Option String`.  The loop accepts the first
result with `text and len(text.strip()) > 50` — note the strict inequality —
and otherwise raises a `ValueError` with the unreadable-document message. -/
def extract_text : List (Option String) → Except String String
  | [] => .error "Could not extract text from PDF using any available method"
  | none :: rest => extract_text rest
  | some t :: rest =>
    if ¬t.data.isEmpty ∧ 50 < (pyStripChars t.data).length then .ok t
    else extract_text rest

/-- `AnalysisSession` (the fields the qualification step reads; other
columns are opaque to every claim).  `match_percentage` is exact (`ℚ`). -/
structure SessionRec where
  sid : Nat
  job_description : String
  resume_text : String
  match_percentage : ℚ

/-- `QualifiedCandidate`: denormalized copy of the session plus the mutable
workflow fields (`status`, `is_contacted`, `notes`) and the qualification
timestamp (modelled as a `Nat` tick). -/
structure CandidateRec where
  cid : Nat
  analysis_session : Nat
  job_description : String
  resume_text : String
  match_percentage : ℚ
  qualification_date : Nat
  status : String
  is_contacted : Bool
  notes : String

/-- The status codes of `QualifiedCandidate.STATUS_CHOICES`. -/
def STATUS_CODES : List String :=
  ["NEW", "REVIEWED", "CONTACTED", "INTERVIEWING", "HIRED", "REJECTED"]

/-- `QualifiedCandidate.objects.create(analysis_session=session, ...)` as
performed by both `analyze_resume` implementations: every match field is
copied from the session and the workflow fields take their model defaults
(`status='NEW'`, `is_contacted=False`, `notes=''`). -/
def qualified_candidate_create (s : SessionRec) (cid qdate : Nat) : CandidateRec :=
  { cid := cid
    analysis_session := s.sid
    job_description := s.job_description
    resume_text := s.resume_text
    match_percentage := s.match_percentage
    qualification_date := qdate
    status := "NEW"
    is_contacted := false
    notes := "" }

/-- The qualification step of `api/main.py::analyze_resume`
(`if float(session.match_percentage) > 80.0`): returns the `is_qualified`
flag and the created candidate, if any. -/
def fastapi_qualification_step (s : SessionRec) (cid qdate : Nat) : Bool × Option CandidateRec :=
  if (80 : ℚ) < s.match_percentage then (true, some (qualified_candidate_create s cid qdate))
  else (false, none)

/-- The qualification step of `apps/analyzer/views.py::analyze_resume`;
textually the same predicate and creation as the FastAPI implementation. -/
def django_qualification_step (s : SessionRec) (cid qdate : Nat) : Bool × Option CandidateRec :=
  if (80 : ℚ) < s.match_percentage then (true, some (qualified_candidate_create s cid qdate))
  else (false, none)

/-- `api/main.py::update_qualified_candidate` (PATCH): each supplied form
field is applied in place — the status is uppercased but NOT validated
against `STATUS_CHOICES` (Django does not enforce `choices` on `save()`). -/
def fastapi_update_candidate (c : CandidateRec)
    (status? : Option String) (is_contacted? : Option Bool) (notes? : Option String) : CandidateRec :=
  let c1 := match status? with
    | some s => { c with status := pyUpper s }
    | none => c
  let c2 := match is_contacted? with
    | some b => { c1 with is_contacted := b }
    | none => c1
  match notes? with
  | some n => { c2 with notes := n }
  | none => c2

/-- `apps/analyzer/views.py::update_qualified_candidate` (PATCH): a DRF
partial `ModelSerializer` update.  `status` is a `ChoiceField`, so a value
outside `STATUS_CHOICES` fails validation and the request returns 400
without saving (`none`); otherwise only the supplied fields are written. -/
def django_update_candidate (c : CandidateRec)
    (status? : Option String) (is_contacted? : Option Bool) (notes? : Option String) :
    Option CandidateRec :=
  let valid := match status? with
    | some s => decide (s ∈ STATUS_CODES)
    | none => true
  if valid then
    some { c with
           status := status?.getD c.status
           is_contacted := is_contacted?.getD c.is_contacted
           notes := notes?.getD c.notes }
  else none

/-- The queryset ordering of `QualifiedCandidate.Meta.ordering =
['-match_percentage', '-qualification_date']`: `a` may precede `b` when its
match percentage is higher, or equal with a no-earlier qualification date. -/
def candBefore (a b : CandidateRec) : Prop :=
  b.match_percentage < a.match_percentage ∨
    (a.match_percentage = b.match_percentage ∧ b.qualification_date ≤ a.qualification_date)

instance : DecidableRel candBefore := fun a b => by
  unfold candBefore
  exact inferInstance

instance : IsTotal CandidateRec candBefore := by
  constructor
  intro a b
  rcases lt_trichotomy a.match_percentage b.match_percentage with h | h | h
  · exact Or.inr (Or.inl h)
  · rcases le_total a.qualification_date b.qualification_date with h2 | h2
    · exact Or.inr (Or.inr ⟨h.symm, h2⟩)
    · exact Or.inl (Or.inr ⟨h, h2⟩)
  · exact Or.inl (Or.inl h)

instance : IsTrans CandidateRec candBefore := by
  constructor
  intro a b c hab hbc
  rcases hab with h1 | ⟨e1, d1⟩
  · rcases hbc with h2 | ⟨e2, d2⟩
    · exact Or.inl (h2.trans h1)
    · exact Or.inl (e2 ▸ h1)
  · rcases hbc with h2 | ⟨e2, d2⟩
    · exact Or.inl (e1 ▸ h2)
    · exact Or.inr ⟨e1.trans e2, d2.trans d1⟩

/-- `GET /api/fastapi/qualified-candidates` (`api/main.py::
list_qualified_candidates`): the model-ordered queryset, the optional
status filter (`if status:` — empty string is falsy), the mandatory
`match_percentage__gte=min_percentage` filter (default 80.0), the optional
`>=90` filter, then `[:50]`. -/
def fastapi_list_qualified (db : List CandidateRec)
    (status? : Option String) (min_percentage : ℚ) (highly_qualified : Bool) :
    List CandidateRec :=
  let qs := List.insertionSort candBefore db
  let qs := match status? with
    | some s => if s = "" then qs else qs.filter (fun c => decide (c.status = pyUpper s))
    | none => qs
  let qs := qs.filter (fun c => decide (min_percentage ≤ c.match_percentage))
  let qs := if highly_qualified then qs.filter (fun c => decide ((90 : ℚ) ≤ c.match_percentage)) else qs
  qs.take 50

/-- `GET /api/django/qualified-candidates/` (`apps/analyzer/views.py::
list_qualified_candidates`): same filters, with the raw query-parameter
semantics — `min_percentage` is parsed with `float(...)` and a `ValueError`
silently skips the filter, `highly_qualified` must lower-case to `"true"` —
and NO result cap. -/
def django_list_qualified (db : List CandidateRec)
    (status? : Option String) (min_percentage? : Option String) (highly_qualified? : Option String) :
    List CandidateRec :=
  let qs := List.insertionSort candBefore db
  let qs := match status? with
    | some s => if s = "" then qs else qs.filter (fun c => decide (c.status = pyUpper s))
    | none => qs
  let qs := match min_percentage? with
    | none => qs.filter (fun c => decide ((80 : ℚ) ≤ c.match_percentage))
    | some str =>
      match strToFloat str with
      | some q => qs.filter (fun c => decide (q ≤ c.match_percentage))
      | none => qs
  match highly_qualified? with
  | some h =>
    if h = "" then qs
    else if pyLower h = "true" then qs.filter (fun c => decide ((90 : ℚ) ≤ c.match_percentage))
    else qs
  | none => qs

/-- C1: a `QualifiedCandidate` is created if and only if the persisted
session's match percentage is strictly greater than 80.0 — exactly 80.00
produces none, anything above produces exactly the one candidate copied
from and linked one-to-one to the session — in both REST implementations. -/
theorem c1_qualification_threshold (s : SessionRec) (cid qdate : Nat) :
    ((fastapi_qualification_step s cid qdate).2 = none ↔ s.match_percentage ≤ 80)
    ∧ ((django_qualification_step s cid qdate).2 = none ↔ s.match_percentage ≤ 80)
    ∧ (∀ c, (fastapi_qualification_step s cid qdate).2 = some c →
        80 < s.match_percentage ∧ c.analysis_session = s.sid
        ∧ c.match_percentage = s.match_percentage ∧ c.status = "NEW" ∧ c.is_contacted = false)
    ∧ (∀ c, (django_qualification_step s cid qdate).2 = some c →
        80 < s.match_percentage ∧ c.analysis_session = s.sid
        ∧ c.match_percentage = s.match_percentage ∧ c.status = "NEW" ∧ c.is_contacted = false)
    ∧ (80 < s.match_percentage →
        (fastapi_qualification_step s cid qdate).2 = some (qualified_candidate_create s cid qdate)
        ∧ (django_qualification_step s cid qdate).2 = some (qualified_candidate_create s cid qdate)) := by
  unfold fastapi_qualification_step django_qualification_step
  by_cases h : (80 : ℚ) < s.match_percentage
  · refine ⟨?_, ?_, ?_, ?_, ?_⟩ <;>
      simp [h, qualified_candidate_create, not_le.mpr h]
  · refine ⟨?_, ?_, ?_, ?_, ?_⟩ <;>
      simp [h, not_lt.mp h]

/-- C1 witness: a session at exactly 80.00 is not promoted; one at 80.01 is
promoted to a candidate linked to it. -/
theorem c1_qualification_threshold_witness :
    (fastapi_qualification_step ⟨1, "jd", "resume", 80⟩ 2 3).2 = none
    ∧ (django_qualification_step ⟨1, "jd", "resume", 80⟩ 2 3).2 = none
    ∧ ∃ c, (fastapi_qualification_step ⟨4, "jd", "resume", 8001 / 100⟩ 5 6).2 = some c
        ∧ c.analysis_session = 4 ∧ c.status = "NEW" := by
  refine ⟨?_, ?_, ?_⟩
  · exact (c1_qualification_threshold ⟨1, "jd", "resume", 80⟩ 2 3).1.mpr le_rfl
  · exact (c1_qualification_threshold ⟨1, "jd", "resume", 80⟩ 2 3).2.1.mpr le_rfl
  · obtain ⟨h1, -⟩ :=
      (c1_qualification_threshold ⟨4, "jd", "resume", 8001 / 100⟩ 5 6).2.2.2.2 (by norm_num)
    exact ⟨_, h1, rfl, rfl⟩

/-- Step equation of `extract_text` on a strategy that returned text. -/
theorem extract_text_cons_some (u : String) (rest : List (Option String)) :
    extract_text (some u :: rest) =
      if ¬u.data.isEmpty ∧ 50 < (pyStripChars u.data).length then .ok u
      else extract_text rest := rfl

/-- Step equation of `extract_text` on a strategy that returned `None`. -/
theorem extract_text_cons_none (rest : List (Option String)) :
    extract_text (none :: rest) = extract_text rest := rfl

/-- C3 counterexample: a strategy returning exactly 50 characters of trimmed
text satisfies the claim's "at least 50" bound, yet the loop rejects it
(`len(text.strip()) > 50` is strict) and extraction raises. -/
theorem c3_counterexample :
    (pyStripChars (String.mk (List.replicate 50 'a')).data).length = 50
    ∧ extract_text [some (String.mk (List.replicate 50 'a'))] =
        .error "Could not extract text from PDF using any available method" := by
  exact ⟨rfl, rfl⟩

/-- C3 (amended): a strategy output qualifies only when its trimmed length
is strictly greater than 50 characters; the first qualifying output wins,
outputs at or below the threshold (including whitespace-only ones) count as
failure of their strategy, and when no strategy qualifies `extract_text`
raises the unreadable-document error. -/
theorem c3_extract_text_threshold (strategies : List (Option String)) :
    (∀ t, extract_text strategies = .ok t →
        some t ∈ strategies ∧ ¬t.data.isEmpty ∧ 50 < (pyStripChars t.data).length)
    ∧ ((∀ t, some t ∈ strategies → t.data.isEmpty ∨ (pyStripChars t.data).length ≤ 50) →
        extract_text strategies = .error "Could not extract text from PDF using any available method")
    ∧ (∀ pre t rest, strategies = pre ++ some t :: rest →
        (∀ u, some u ∈ pre → u.data.isEmpty ∨ (pyStripChars u.data).length ≤ 50) →
        ¬t.data.isEmpty → 50 < (pyStripChars t.data).length →
        extract_text strategies = .ok t) := by
  refine ⟨?_, ?_, ?_⟩
  · induction strategies with
    | nil => intro t ht; simp [extract_text] at ht
    | cons o rest ih =>
      intro t ht
      cases o with
      | none =>
        rw [extract_text_cons_none] at ht
        have := ih t ht
        exact ⟨List.mem_cons_of_mem _ this.1, this.2⟩
      | some u =>
        rw [extract_text_cons_some] at ht
        by_cases hq : ¬u.data.isEmpty ∧ 50 < (pyStripChars u.data).length
        · rw [if_pos hq] at ht
          cases ht
          exact ⟨List.mem_cons_self _ _, hq⟩
        · rw [if_neg hq] at ht
          have := ih t ht
          exact ⟨List.mem_cons_of_mem _ this.1, this.2⟩
  · induction strategies with
    | nil => intro _; rfl
    | cons o rest ih =>
      intro hall
      cases o with
      | none =>
        rw [extract_text_cons_none]
        exact ih (fun t ht => hall t (List.mem_cons_of_mem _ ht))
      | some u =>
        have hu := hall u (List.mem_cons_self _ _)
        have hq : ¬(¬u.data.isEmpty ∧ 50 < (pyStripChars u.data).length) := by
          rcases hu with h | h
          · intro hc; exact hc.1 h
          · intro hc; exact absurd hc.2 (not_lt.mpr h)
        rw [extract_text_cons_some, if_neg hq]
        exact ih (fun t ht => hall t (List.mem_cons_of_mem _ ht))
  · intro pre t rest hsplit hpre hne hlen
    subst hsplit
    induction pre with
    | nil =>
      rw [List.nil_append, extract_text_cons_some, if_pos ⟨hne, hlen⟩]
    | cons o pres ih =>
      cases o with
      | none =>
        rw [List.cons_append, extract_text_cons_none]
        exact ih (fun u hu => hpre u (List.mem_cons_of_mem _ hu))
      | some u =>
        have hu := hpre u (List.mem_cons_self _ _)
        have hq : ¬(¬u.data.isEmpty ∧ 50 < (pyStripChars u.data).length) := by
          rcases hu with h | h
          · intro hc; exact hc.1 h
          · intro hc; exact absurd hc.2 (not_lt.mpr h)
        rw [List.cons_append, extract_text_cons_some, if_neg hq]
        exact ih (fun v hv => hpre v (List.mem_cons_of_mem _ hv))

/-- C3 witness: earlier failing strategies (a swallowed exception, then a
whitespace-only result) are skipped and the first output longer than 50
trimmed characters is returned; a lone empty-output strategy raises. -/
theorem c3_extract_text_threshold_witness :
    extract_text [none, some " ", some (String.mk (List.replicate 51 'b'))] =
      .ok (String.mk (List.replicate 51 'b'))
    ∧ extract_text [some ""] =
        .error "Could not extract text from PDF using any available method" := by
  constructor
  · exact (c3_extract_text_threshold _).2.2 [none, some " "] _ [] rfl
      (by intro u hu; simp at hu; subst hu; right; decide) (by decide) (by decide)
  · exact (c3_extract_text_threshold _).2.1
      (by intro t ht; simp at ht; subst ht; left; rfl)

/-- C4 counterexample: the FastAPI PATCH implementation uppercases and
stores any supplied status without validating it against the six
`STATUS_CHOICES`, so a stored candidate can leave the enumerated set. -/
theorem c4_counterexample :
    (fastapi_update_candidate ⟨1, 1, "jd", "rt", 85, 0, "NEW", false, ""⟩
        (some "archived") none none).status = "ARCHIVED"
    ∧ "ARCHIVED" ∉ STATUS_CODES := by
  exact ⟨rfl, by decide⟩

/-- C4 (amended): a candidate is created with status NEW, one of the six
enumerated values, and the Django REST implementation keeps the status
inside that set on every accepted partial update (its `ChoiceField`
rejects other values with a 400); the FastAPI implementation instead
stores the uppercased supplied string unvalidated, so its updates can
leave the set. -/
theorem c4_status_set (s : SessionRec) (cid qdate : Nat) (c : CandidateRec)
    (status? : Option String) (is_contacted? : Option Bool) (notes? : Option String) :
    ((qualified_candidate_create s cid qdate).status = "NEW" ∧ "NEW" ∈ STATUS_CODES)
    ∧ (∀ c', c.status ∈ STATUS_CODES →
        django_update_candidate c status? is_contacted? notes? = some c' →
        c'.status ∈ STATUS_CODES)
    ∧ (∀ str, (fastapi_update_candidate c (some str) is_contacted? notes?).status = pyUpper str) := by
  refine ⟨⟨rfl, by decide⟩, ?_, ?_⟩
  · intro c' hc hup
    unfold django_update_candidate at hup
    cases status? with
    | none =>
      simp at hup
      rw [← hup]
      exact hc
    | some str =>
      by_cases hs : str ∈ STATUS_CODES
      · simp [hs] at hup
        rw [← hup]
        exact hs
      · simp [hs] at hup
  · intro str
    unfold fastapi_update_candidate
    cases is_contacted? <;> cases notes? <;> rfl

/-- C4 witness: creation yields status NEW, and a valid Django PATCH keeps
the status inside the enumerated set. -/
theorem c4_status_set_witness :
    (qualified_candidate_create ⟨1, "jd", "rt", 95⟩ 2 3).status = "NEW"
    ∧ ∃ c', django_update_candidate ⟨1, 1, "jd", "rt", 95, 0, "NEW", false, ""⟩
          (some "HIRED") none none = some c' ∧ c'.status ∈ STATUS_CODES := by
  obtain ⟨h1, h2, -⟩ :=
    c4_status_set ⟨1, "jd", "rt", 95⟩ 2 3 ⟨1, 1, "jd", "rt", 95, 0, "NEW", false, ""⟩
      (some "HIRED") none none
  exact ⟨h1.1, ⟨_, rfl, h2 _ (by decide) rfl⟩⟩

/-- When the supplied status (if any) is one of the `STATUS_CHOICES`, the
Django partial update succeeds and merges exactly the supplied fields. -/
theorem django_update_eq (c : CandidateRec)
    (s? : Option String) (b? : Option Bool) (n? : Option String)
    (hvalid : ∀ s, s? = some s → s ∈ STATUS_CODES) :
    django_update_candidate c s? b? n? =
      some { c with
             status := s?.getD c.status
             is_contacted := b?.getD c.is_contacted
             notes := n?.getD c.notes } := by
  unfold django_update_candidate
  rcases s? with - | s
  · rfl
  · have hs := hvalid s rfl
    simp [hs]

/-- C8: both PATCH implementations perform a partial merge over the three
workflow fields: every field not supplied keeps its prior value (all other
columns are untouched), and each supplied field takes the supplied value
(uppercased status in the FastAPI implementation; validated verbatim status
in the Django implementation). -/
theorem c8_partial_update_frame (c : CandidateRec)
    (s? : Option String) (b? : Option Bool) (n? : Option String) :
    ((fastapi_update_candidate c s? b? n?).cid = c.cid
      ∧ (fastapi_update_candidate c s? b? n?).analysis_session = c.analysis_session
      ∧ (fastapi_update_candidate c s? b? n?).job_description = c.job_description
      ∧ (fastapi_update_candidate c s? b? n?).resume_text = c.resume_text
      ∧ (fastapi_update_candidate c s? b? n?).match_percentage = c.match_percentage
      ∧ (fastapi_update_candidate c s? b? n?).qualification_date = c.qualification_date)
    ∧ (s? = none → (fastapi_update_candidate c s? b? n?).status = c.status)
    ∧ (b? = none → (fastapi_update_candidate c s? b? n?).is_contacted = c.is_contacted)
    ∧ (n? = none → (fastapi_update_candidate c s? b? n?).notes = c.notes)
    ∧ (∀ s, s? = some s → (fastapi_update_candidate c s? b? n?).status = pyUpper s)
    ∧ (∀ b, b? = some b → (fastapi_update_candidate c s? b? n?).is_contacted = b)
    ∧ (∀ n, n? = some n → (fastapi_update_candidate c s? b? n?).notes = n)
    ∧ (∀ c', django_update_candidate c s? b? n? = some c' →
        c'.cid = c.cid ∧ c'.analysis_session = c.analysis_session
        ∧ c'.job_description = c.job_description ∧ c'.resume_text = c.resume_text
        ∧ c'.match_percentage = c.match_percentage ∧ c'.qualification_date = c.qualification_date
        ∧ (s? = none → c'.status = c.status)
        ∧ (b? = none → c'.is_contacted = c.is_contacted)
        ∧ (n? = none → c'.notes = c.notes)
        ∧ (∀ s, s? = some s → c'.status = s)
        ∧ (∀ b, b? = some b → c'.is_contacted = b)
        ∧ (∀ n, n? = some n → c'.notes = n)) := by
  refine ⟨⟨?_, ?_, ?_, ?_, ?_, ?_⟩, ?_, ?_, ?_, ?_, ?_, ?_, ?_⟩
  · rcases s? with - | s <;> rcases b? with - | b <;> rcases n? with - | n <;> rfl
  · rcases s? with - | s <;> rcases b? with - | b <;> rcases n? with - | n <;> rfl
  · rcases s? with - | s <;> rcases b? with - | b <;> rcases n? with - | n <;> rfl
  · rcases s? with - | s <;> rcases b? with - | b <;> rcases n? with - | n <;> rfl
  · rcases s? with - | s <;> rcases b? with - | b <;> rcases n? with - | n <;> rfl
  · rcases s? with - | s <;> rcases b? with - | b <;> rcases n? with - | n <;> rfl
  · intro h; subst h; rcases b? with - | b <;> rcases n? with - | n <;> rfl
  · intro h; subst h; rcases s? with - | s <;> rcases n? with - | n <;> rfl
  · intro h; subst h; rcases s? with - | s <;> rcases b? with - | b <;> rfl
  · intro s h; subst h; rcases b? with - | b <;> rcases n? with - | n <;> rfl
  · intro b h; subst h; rcases s? with - | s <;> rcases n? with - | n <;> rfl
  · intro n h; subst h; rcases s? with - | s <;> rcases b? with - | b <;> rfl
  · intro c' hup
    rcases s? with - | s
    · rw [django_update_eq c none b? n? (by intro x h; cases h)] at hup
      cases hup
      refine ⟨rfl, rfl, rfl, rfl, rfl, rfl, fun _ => rfl, ?_, ?_, ?_, ?_, ?_⟩
      · intro h; subst h; rfl
      · intro h; subst h; rfl
      · intro x h; cases h
      · intro x h; subst h; rfl
      · intro x h; subst h; rfl
    · by_cases hs : s ∈ STATUS_CODES
      · rw [django_update_eq c (some s) b? n? (by intro x h; cases h; exact hs)] at hup
        cases hup
        refine ⟨rfl, rfl, rfl, rfl, rfl, rfl, ?_, ?_, ?_, ?_, ?_, ?_⟩
        · intro h; cases h
        · intro h; subst h; rfl
        · intro h; subst h; rfl
        · intro x h; cases h; rfl
        · intro x h; subst h; rfl
        · intro x h; subst h; rfl
      · unfold django_update_candidate at hup
        simp [hs] at hup

/-- C8 witness: a PATCH carrying only a status leaves the notes and the
contacted flag unchanged in both implementations. -/
theorem c8_partial_update_frame_witness :
    (fastapi_update_candidate ⟨9, 9, "jd", "rt", 92, 4, "NEW", true, "keep"⟩
        (some "CONTACTED") none none).notes = "keep"
    ∧ (fastapi_update_candidate ⟨9, 9, "jd", "rt", 92, 4, "NEW", true, "keep"⟩
        (some "CONTACTED") none none).is_contacted = true
    ∧ ∀ c', django_update_candidate ⟨9, 9, "jd", "rt", 92, 4, "NEW", true, "keep"⟩
          (some "CONTACTED") none none = some c' →
        c'.notes = "keep" ∧ c'.is_contacted = true := by
  have h := c8_partial_update_frame ⟨9, 9, "jd", "rt", 92, 4, "NEW", true, "keep"⟩
    (some "CONTACTED") none none
  refine ⟨h.2.2.2.1 rfl, h.2.2.1 rfl, ?_⟩
  intro c' hup
  have hd := h.2.2.2.2.2.2.2 c' hup
  exact ⟨hd.2.2.2.2.2.2.2.2.1 rfl, hd.2.2.2.2.2.2.2.1 rfl⟩

/-- Matching a longer needle implies matching its prefix. -/
theorem startsWithChars_of_append (n1 n2 l : List Char)
    (h : startsWithChars (n1 ++ n2) l = true) : startsWithChars n1 l = true := by
  induction n1 generalizing l with
  | nil => rfl
  | cons a as ih =>
    cases l with
    | nil => simp [startsWithChars] at h
    | cons b bs =>
      rw [List.cons_append, startsWithChars, Bool.and_eq_true] at h
      rw [startsWithChars, Bool.and_eq_true]
      exact ⟨h.1, ih bs h.2⟩

/-- Containment of a longer needle implies containment of its prefix. -/
theorem containsChars_of_append (n1 n2 hay : List Char)
    (h : containsChars (n1 ++ n2) hay = true) : containsChars n1 hay = true := by
  induction hay with
  | nil =>
    rw [containsChars] at h ⊢
    simp only [List.isEmpty_eq_true, List.append_eq_nil] at h
    simp [h.1]
  | cons b bs ih =>
    rw [containsChars, Bool.or_eq_true] at h ⊢
    rcases h with h | h
    · exact Or.inl (startsWithChars_of_append n1 n2 _ h)
    · exact Or.inr (ih h)

/-- A text containing a ```json fence contains a generic ``` fence. -/
theorem pyContains_json_fence (text : String)
    (h : pyContains text "```json" = true) : pyContains text "```" = true :=
  containsChars_of_append "```".data "json".data text.data h

/-- C2 counterexample: malformed JSON inside a ```json fenced block makes
`_extract_json` raise — the `try/except` of the source guards only the
whole-text parse, so the never-throw contract fails on fenced input. -/
theorem c2_counterexample :
    _extract_json "```json\nnot json\n```" = .error "json.decoder.JSONDecodeError" := by
  rfl

/-- C2 (amended): `_extract_json` parses the first ```json fenced block if
present, else the first generic fenced block, else the whole text, and the
degraded `raw_response` fallback (never throwing) applies exactly to texts
with no fence: every raised error comes from a fenced parse. -/
theorem c2_extract_json_nothrow (text : String) :
    (pyContains text "```" = false →
        ∃ j, _extract_json text = .ok j
          ∧ (json_loads text = some j ∨
             (json_loads text = none ∧ j = .jobj [("raw_response", .jstr text)])))
    ∧ (∀ e, _extract_json text = .error e → pyContains text "```" = true) := by
  constructor
  · intro h
    have hj : pyContains text "```json" = false := by
      cases hx : pyContains text "```json"
      · rfl
      · exact absurd (pyContains_json_fence text hx) (by simp [h])
    unfold _extract_json
    simp only [hj, Bool.false_eq_true, if_false, h]
    cases hl : json_loads text
    · exact ⟨_, rfl, Or.inr ⟨rfl, rfl⟩⟩
    · exact ⟨_, rfl, Or.inl rfl⟩
  · intro e he
    cases hx : pyContains text "```"
    · exfalso
      have hj : pyContains text "```json" = false := by
        cases hy : pyContains text "```json"
        · rfl
        · exact absurd (pyContains_json_fence text hy) (by simp [hx])
      unfold _extract_json at he
      simp only [hj, Bool.false_eq_true, if_false, hx] at he
      cases hl : json_loads text <;> simp [hl] at he
    · rfl

/-- C2 witness: unfenced text that is not JSON degrades to the raw-response
object instead of raising. -/
theorem c2_extract_json_nothrow_witness :
    ∃ j, _extract_json "plain text answer" = .ok j
      ∧ (json_loads "plain text answer" = some j ∨
         (json_loads "plain text answer" = none
          ∧ j = .jobj [("raw_response", .jstr "plain text answer")])) :=
  (c2_extract_json_nothrow "plain text answer").1 rfl

/-- C5: for a model identifier containing "amazon.nova" and matching none of
the earlier families in the dispatch order, `analyze_resume_match` fails
with the descriptive provisioned-throughput error no matter what the
invocation oracle would answer — the external call is never attempted, and
the error is raised outside the try block, so it propagates unwrapped. -/
theorem c5_nova_fails_fast (model_id : String)
    (h1 : pyContains model_id "amazon.nova" = true)
    (h2 : pyContains model_id "anthropic" = false)
    (h3 : pyContains model_id "meta.llama" = false)
    (h4 : pyContains model_id "amazon.titan-text" = false) :
    ∀ (invoke : Payload → Except String JValue) (resume_text job_description : String),
      analyze_resume_match invoke model_id resume_text job_description =
        .error (model_id ++ " cannot run on-demand. Requires Provisioned Throughput (PTU).") := by
  intro invoke r jd
  unfold analyze_resume_match _build_payload
  simp [h1, h2, h3, h4]

/-- C5 witness: an `amazon.nova` identifier fails fast with the PTU message
even when the oracle would answer successfully. -/
theorem c5_nova_fails_fast_witness :
    analyze_resume_match (fun _ => .ok (.jobj [])) "amazon.nova-lite-v1:0" "resume" "jd" =
      .error "amazon.nova-lite-v1:0 cannot run on-demand. Requires Provisioned Throughput (PTU)." :=
  c5_nova_fails_fast "amazon.nova-lite-v1:0" rfl rfl rfl rfl (fun _ => .ok (.jobj [])) "resume" "jd"

/-- Step equation of `_structure_output` on an object. -/
theorem structure_output_obj (fields : List (String × JValue)) :
    _structure_output (.jobj fields) =
      (match pyFloat (pyGet fields "match_percentage" (.jint 0)) with
       | some q =>
         .ok { match_percentage := q
               matching_skills := pyGet fields "matching_skills" (.jarr [])
               matching_education := pyGet fields "matching_education" (.jstr "")
               matching_experience := pyGet fields "matching_experience" (.jstr "")
               highlighted_strengths := pyGet fields "highlighted_strengths" (.jarr [])
               identified_gaps := pyGet fields "identified_gaps" (.jarr [])
               detailed_analysis := pyGet fields "detailed_analysis" (.jobj [])
               raw_response := .jobj fields
               processing_time := pyGet fields "processing_time" (.jfloat 1) }
       | none => .error "float() argument must be a string or a real number") := rfl

/-- C6: `_structure_output` coerces the match percentage with `float(...)`
whether the parsed JSON holds an integer, a float, or a numeric string
(72 becomes the float 72.0); a present non-numeric value raises, and that
error propagates through `analyze_resume_match` as an analysis failure
rather than being defaulted. -/
theorem c6_match_percentage_coercion (fields : List (String × JValue)) :
    (∀ n : Int, lookupJ fields "match_percentage" = some (.jint n) →
        ∃ out, _structure_output (.jobj fields) = .ok out ∧ out.match_percentage = (n : ℚ))
    ∧ (∀ q : ℚ, lookupJ fields "match_percentage" = some (.jfloat q) →
        ∃ out, _structure_output (.jobj fields) = .ok out ∧ out.match_percentage = q)
    ∧ (∀ s q, lookupJ fields "match_percentage" = some (.jstr s) → strToFloat s = some q →
        ∃ out, _structure_output (.jobj fields) = .ok out ∧ out.match_percentage = q)
    ∧ (∀ v, lookupJ fields "match_percentage" = some v → pyFloat v = none →
        _structure_output (.jobj fields) = .error "float() argument must be a string or a real number"
        ∧ (∀ invoke model_id resume_text job_description,
            (∃ payload,
                _build_payload model_id (_build_prompt resume_text job_description) = .ok payload
                ∧ tryStages invoke payload = .ok (.jobj fields)) →
            analyze_resume_match invoke model_id resume_text job_description =
              .error ("Analysis failed: " ++ "float() argument must be a string or a real number"))) := by
  refine ⟨?_, ?_, ?_, ?_⟩
  · intro n hl
    have hpg : pyGet fields "match_percentage" (.jint 0) = .jint n := by
      unfold pyGet; rw [hl]; rfl
    rw [structure_output_obj, hpg]
    exact ⟨_, rfl, rfl⟩
  · intro q hl
    have hpg : pyGet fields "match_percentage" (.jint 0) = .jfloat q := by
      unfold pyGet; rw [hl]; rfl
    rw [structure_output_obj, hpg]
    exact ⟨_, rfl, rfl⟩
  · intro s q hl hs
    have hpg : pyGet fields "match_percentage" (.jint 0) = .jstr s := by
      unfold pyGet; rw [hl]; rfl
    rw [structure_output_obj, hpg]
    simp only [pyFloat, hs]
    exact ⟨_, rfl, rfl⟩
  · intro v hl hv
    have hpg : pyGet fields "match_percentage" (.jint 0) = v := by
      unfold pyGet; rw [hl]; rfl
    have herr : _structure_output (.jobj fields) =
        .error "float() argument must be a string or a real number" := by
      rw [structure_output_obj, hpg]
      simp only [hv]
    refine ⟨herr, ?_⟩
    intro invoke model_id r jd ⟨payload, hp, hstage⟩
    unfold analyze_resume_match
    simp only [hp, hstage, herr]

/-- C6 witness: an integer 72 normalizes to the exact value 72, and a
non-numeric string for the match percentage makes the whole end-to-end
analysis fail with the propagated float-conversion error. -/
theorem c6_match_percentage_coercion_witness :
    (∃ out, _structure_output
        (.jobj [("match_percentage", .jint 72), ("matching_skills", .jarr [.jstr "Python"])]) = .ok out
        ∧ out.match_percentage = 72)
    ∧ analyze_resume_match
        (fun _ => .ok (.jobj [("generation", .jstr "\x7b\"match_percentage\": \"high\"\x7d")]))
        "meta.llama3-8b-instruct-v1:0" "" "" =
        .error ("Analysis failed: " ++ "float() argument must be a string or a real number") := by
  constructor
  · obtain ⟨out, ho, hm⟩ :=
      (c6_match_percentage_coercion
        [("match_percentage", .jint 72), ("matching_skills", .jarr [.jstr "Python"])]).1 72 rfl
    refine ⟨out, ho, ?_⟩
    rw [hm]
    norm_num
  · exact ((c6_match_percentage_coercion [("match_percentage", .jstr "high")]).2.2.2
      (.jstr "high") rfl rfl).2
      (fun _ => .ok (.jobj [("generation", .jstr "\x7b\"match_percentage\": \"high\"\x7d")]))
      "meta.llama3-8b-instruct-v1:0" "" ""
      ⟨Payload.llamaPrompt 4096 0.2 (_build_prompt "" ""), rfl, rfl⟩

/-- C7: for every parsed JSON object, `_structure_output` substitutes the
documented default for each absent field — 0 for the match percentage,
empty lists for skills/strengths/gaps, empty strings for education and
experience, an empty object for the detailed analysis — and never raises
because a field is missing. -/
theorem c7_structure_defaults (fields : List (String × JValue)) :
    (lookupJ fields "match_percentage" = none →
        ∃ out, _structure_output (.jobj fields) = .ok out ∧ out.match_percentage = 0)
    ∧ (∀ out, _structure_output (.jobj fields) = .ok out →
        (lookupJ fields "matching_skills" = none → out.matching_skills = .jarr [])
        ∧ (lookupJ fields "matching_education" = none → out.matching_education = .jstr "")
        ∧ (lookupJ fields "matching_experience" = none → out.matching_experience = .jstr "")
        ∧ (lookupJ fields "highlighted_strengths" = none → out.highlighted_strengths = .jarr [])
        ∧ (lookupJ fields "identified_gaps" = none → out.identified_gaps = .jarr [])
        ∧ (lookupJ fields "detailed_analysis" = none → out.detailed_analysis = .jobj [])) := by
  constructor
  · intro hl
    have hpg : pyGet fields "match_percentage" (.jint 0) = .jint 0 := by
      unfold pyGet; rw [hl]; rfl
    rw [structure_output_obj, hpg]
    refine ⟨_, rfl, ?_⟩
    show ((0 : Int) : ℚ) = 0
    norm_num
  · intro out hout
    rw [structure_output_obj] at hout
    rcases hpf : pyFloat (pyGet fields "match_percentage" (.jint 0)) with - | q
    · rw [hpf] at hout
      cases hout
    · rw [hpf] at hout
      cases hout
      refine ⟨?_, ?_, ?_, ?_, ?_, ?_⟩ <;>
        (intro hl; show pyGet fields _ _ = _; unfold pyGet; rw [hl]; rfl)

/-- C7 witness: the empty object normalizes without raising, with every
field at its default. -/
theorem c7_structure_defaults_witness :
    ∃ out, _structure_output (.jobj []) = .ok out ∧ out.match_percentage = 0
      ∧ out.matching_skills = .jarr [] ∧ out.matching_education = .jstr ""
      ∧ out.matching_experience = .jstr "" ∧ out.highlighted_strengths = .jarr []
      ∧ out.identified_gaps = .jarr [] ∧ out.detailed_analysis = .jobj [] := by
  obtain ⟨out, ho, hm⟩ := (c7_structure_defaults []).1 rfl
  have h2 := (c7_structure_defaults []).2 out ho
  exact ⟨out, ho, hm, h2.1 rfl, h2.2.1 rfl, h2.2.2.1 rfl, h2.2.2.2.1 rfl,
    h2.2.2.2.2.1 rfl, h2.2.2.2.2.2 rfl⟩

/-- C10: when the decoded body has a `results` key (and neither `content`
nor `generation`) bound to an empty list, `_extract_text` raises an
IndexError instead of reaching the serialize-the-body fallback, and the
whole analysis fails for any request whose invocation yields that body. -/
theorem c10_empty_results (fields : List (String × JValue))
    (h1 : lookupJ fields "content" = none)
    (h2 : lookupJ fields "generation" = none)
    (h3 : lookupJ fields "results" = some (.jarr [])) :
    _extract_text (.jobj fields) = .error "IndexError: list index out of range"
    ∧ (∀ invoke model_id resume_text job_description,
        (∃ payload,
            _build_payload model_id (_build_prompt resume_text job_description) = .ok payload
            ∧ invoke payload = .ok (.jobj fields)) →
        analyze_resume_match invoke model_id resume_text job_description =
          .error ("Analysis failed: " ++ "IndexError: list index out of range")) := by
  have herr : _extract_text (.jobj fields) = .error "IndexError: list index out of range" := by
    unfold _extract_text
    simp only [h1, h2, h3]
  refine ⟨herr, ?_⟩
  intro invoke model_id r jd ⟨payload, hp, hi⟩
  unfold analyze_resume_match tryStages
  simp only [hp, hi, herr]

/-- C10 witness: a Titan-shaped body with an empty `results` list makes the
end-to-end analysis fail with the propagated IndexError. -/
theorem c10_empty_results_witness :
    _extract_text (.jobj [("results", .jarr [])]) = .error "IndexError: list index out of range"
    ∧ analyze_resume_match (fun _ => .ok (.jobj [("results", .jarr [])]))
        "mistral.mistral-large-2402-v1:0" "" "" =
        .error ("Analysis failed: " ++ "IndexError: list index out of range") := by
  have h := c10_empty_results [("results", .jarr [])] rfl rfl rfl
  exact ⟨h.1, h.2 (fun _ => .ok (.jobj [("results", .jarr [])]))
    "mistral.mistral-large-2402-v1:0" "" ""
    ⟨Payload.genericPrompt 4096 0.2 (_build_prompt "" ""), rfl, rfl⟩⟩

/-- Membership in a decidable filter yields the filtered property. -/
theorem mem_filter_prop {l : List CandidateRec} {p : CandidateRec → Prop} [DecidablePred p] {c : CandidateRec}
    (h : c ∈ l.filter (fun x => decide (p x))) : p c :=
  of_decide_eq_true (List.mem_filter.mp h).2

/-- Sortedness survives a filter. -/
theorem sorted_filter_cand {l : List CandidateRec} (f : CandidateRec → Bool)
    (h : List.Sorted candBefore l) : List.Sorted candBefore (l.filter f) :=
  h.sublist (List.filter_sublist l)

/-- Sortedness survives a take. -/
theorem sorted_take_cand {l : List CandidateRec} (n : Nat)
    (h : List.Sorted candBefore l) : List.Sorted candBefore (l.take n) :=
  h.sublist (List.take_sublist n l)

/-- The common tail of the FastAPI list endpoint: the mandatory minimum
filter, the optional highly-qualified filter, and the 50-row cap. -/
theorem c9_fastapi_tail (l0 : List CandidateRec) (minp : ℚ) (hq : Bool)
    (hsort : List.Sorted candBefore l0) :
    (∀ c ∈ ((if hq then
          (l0.filter (fun c => decide (minp ≤ c.match_percentage))).filter
            (fun c => decide ((90 : ℚ) ≤ c.match_percentage))
        else l0.filter (fun c => decide (minp ≤ c.match_percentage))).take 50),
        minp ≤ c.match_percentage)
    ∧ List.Sorted candBefore ((if hq then
          (l0.filter (fun c => decide (minp ≤ c.match_percentage))).filter
            (fun c => decide ((90 : ℚ) ≤ c.match_percentage))
        else l0.filter (fun c => decide (minp ≤ c.match_percentage))).take 50)
    ∧ ((if hq then
          (l0.filter (fun c => decide (minp ≤ c.match_percentage))).filter
            (fun c => decide ((90 : ℚ) ≤ c.match_percentage))
        else l0.filter (fun c => decide (minp ≤ c.match_percentage))).take 50).length ≤ 50 := by
  cases hq with
  | false =>
    simp only [if_false, Bool.false_eq_true]
    refine ⟨?_, ?_, List.length_take_le 50 _⟩
    · intro c hc
      exact mem_filter_prop (List.mem_of_mem_take hc)
    · exact sorted_take_cand 50 (sorted_filter_cand _ hsort)
  | true =>
    simp only [if_true]
    refine ⟨?_, ?_, List.length_take_le 50 _⟩
    · intro c hc
      exact mem_filter_prop (List.mem_filter.mp (List.mem_of_mem_take hc)).1
    · exact sorted_take_cand 50 (sorted_filter_cand _ (sorted_filter_cand _ hsort))

/-- The common tail of the Django list endpoint: the optional
highly-qualified filter keeps the minimum-percentage guarantee and the
ordering (and applies no cap). -/
theorem c9_django_tail (l2 : List CandidateRec) (q0 : ℚ) (hq? : Option String)
    (hmem : ∀ c ∈ l2, q0 ≤ c.match_percentage) (hsort : List.Sorted candBefore l2) :
    (∀ c ∈ ((match hq? with
            | some h =>
              if h = "" then l2
              else if pyLower h = "true" then
                l2.filter (fun c => decide ((90 : ℚ) ≤ c.match_percentage))
              else l2
            | none => l2 : List CandidateRec)), q0 ≤ c.match_percentage)
    ∧ List.Sorted candBefore ((match hq? with
            | some h =>
              if h = "" then l2
              else if pyLower h = "true" then
                l2.filter (fun c => decide ((90 : ℚ) ≤ c.match_percentage))
              else l2
            | none => l2 : List CandidateRec)) := by
  rcases hq? with - | h
  · exact ⟨hmem, hsort⟩
  · by_cases he : h = ""
    · simp only [he, if_true]
      exact ⟨hmem, hsort⟩
    · by_cases ht : pyLower h = "true"
      · simp only [he, ht, if_true, if_false]
        refine ⟨?_, sorted_filter_cand _ hsort⟩
        intro c hc
        exact hmem c (List.mem_filter.mp hc).1
      · simp only [he, ht, if_false]
        exact ⟨hmem, hsort⟩

/-- The optional highly-qualified stage of the Django list endpoint keeps
the queryset ordering. -/
theorem c9_django_sorted (l2 : List CandidateRec) (hq? : Option String)
    (hsort : List.Sorted candBefore l2) :
    List.Sorted candBefore ((match hq? with
        | some h =>
          if h = "" then l2
          else if pyLower h = "true" then
            l2.filter (fun c => decide ((90 : ℚ) ≤ c.match_percentage))
          else l2
        | none => l2 : List CandidateRec)) := by
  rcases hq? with - | h
  · exact hsort
  · by_cases he : h = ""
    · simp only [he, if_true]
      exact hsort
    · by_cases ht : pyLower h = "true"
      · simp only [he, ht, if_true, if_false]
        exact sorted_filter_cand _ hsort
      · simp only [he, ht, if_false]
        exact hsort

/-- The status stage of either list endpoint keeps the queryset ordering. -/
theorem c9_status_sorted (status? : Option String) (l : List CandidateRec)
    (hl : List.Sorted candBefore l) :
    List.Sorted candBefore ((match status? with
        | some s => if s = "" then l else l.filter (fun c => decide (c.status = pyUpper s))
        | none => l : List CandidateRec)) := by
  rcases status? with - | s
  · exact hl
  · by_cases he : s = ""
    · simp only [he, if_true]
      exact hl
    · simp only [he, if_false]
      exact sorted_filter_cand _ hl

/-- C9 (amended): both list endpoints return only candidates at or above
the requested minimum percentage, ordered by descending match percentage
then descending qualification date; the FastAPI implementation caps the
result at 50 rows, while the Django implementation returns every matching
row uncapped. -/
theorem c9_list_filter_sort_cap (db : List CandidateRec) (status? : Option String)
    (minp : ℚ) (hq : Bool) (minp? hq? : Option String) :
    (∀ c ∈ fastapi_list_qualified db status? minp hq, minp ≤ c.match_percentage)
    ∧ List.Sorted candBefore (fastapi_list_qualified db status? minp hq)
    ∧ (fastapi_list_qualified db status? minp hq).length ≤ 50
    ∧ (minp? = none →
        ∀ c ∈ django_list_qualified db status? minp? hq?, (80 : ℚ) ≤ c.match_percentage)
    ∧ (∀ s q, minp? = some s → strToFloat s = some q →
        ∀ c ∈ django_list_qualified db status? minp? hq?, q ≤ c.match_percentage)
    ∧ List.Sorted candBefore (django_list_qualified db status? minp? hq?) := by
  have hsortBase : List.Sorted candBefore (List.insertionSort candBefore db) :=
    List.sorted_insertionSort candBefore db
  have hstat := c9_status_sorted status? _ hsortBase
  obtain ⟨f1, f2, f3⟩ := c9_fastapi_tail _ minp hq hstat
  refine ⟨f1, f2, f3, ?_, ?_, ?_⟩
  · intro hm
    subst hm
    simp only [django_list_qualified]
    exact (c9_django_tail _ 80 hq? (fun c hc => mem_filter_prop hc) (sorted_filter_cand _ hstat)).1
  · intro s q hms hsf
    subst hms
    simp only [django_list_qualified, hsf]
    exact (c9_django_tail _ q hq? (fun c hc => mem_filter_prop hc) (sorted_filter_cand _ hstat)).1
  · simp only [django_list_qualified]
    rcases minp? with - | s
    · exact c9_django_sorted _ hq? (sorted_filter_cand _ hstat)
    · rcases hsf : strToFloat s with - | q
      · simp only [hsf]
        exact c9_django_sorted _ hq? hstat
      · simp only [hsf]
        exact c9_django_sorted _ hq? (sorted_filter_cand _ hstat)

/-- C9 counterexample: with 51 stored qualified candidates the Django list
endpoint returns all 51 rows — the 50-row cap exists only in the FastAPI
implementation. -/
theorem c9_counterexample :
    ¬((django_list_qualified (List.replicate 51 ⟨1, 1, "jd", "rt", 95, 0, "NEW", false, ""⟩)
        none none none).length ≤ 50)
    ∧ (fastapi_list_qualified (List.replicate 51 ⟨1, 1, "jd", "rt", 95, 0, "NEW", false, ""⟩)
        none 80 false).length = 50 := by
  exact ⟨by decide, by decide⟩

/-- C9 witness: on a concrete store the FastAPI endpoint keeps only rows at
or above the requested minimum and respects the cap. -/
theorem c9_list_filter_sort_cap_witness :
    (∀ c ∈ fastapi_list_qualified
        [⟨1, 1, "jd", "rt", 95, 0, "NEW", false, ""⟩, ⟨2, 2, "jd", "rt", 85, 1, "NEW", false, ""⟩]
        none 90 false, (90 : ℚ) ≤ c.match_percentage)
    ∧ (fastapi_list_qualified
        [⟨1, 1, "jd", "rt", 95, 0, "NEW", false, ""⟩, ⟨2, 2, "jd", "rt", 85, 1, "NEW", false, ""⟩]
        none 90 false).length ≤ 50
    ∧ (∀ c ∈ django_list_qualified
        [⟨1, 1, "jd", "rt", 95, 0, "NEW", false, ""⟩, ⟨2, 2, "jd", "rt", 85, 1, "NEW", false, ""⟩]
        none (some "90") none, (90 : ℚ) ≤ c.match_percentage) := by
  have h := c9_list_filter_sort_cap
    [⟨1, 1, "jd", "rt", 95, 0, "NEW", false, ""⟩, ⟨2, 2, "jd", "rt", 85, 1, "NEW", false, ""⟩]
    none 90 false (some "90") none
  exact ⟨h.1, h.2.2.1, h.2.2.2.2.1 "90" 90 rfl rfl⟩
